import Mathlib

/-!
Shallow embedding of the configuration layer of the kvgo key-value store
(`conf.go`): the configuration schema, the normalization pass (`reset`),
validation (`Valid`), the cluster master rotation selector (`randMasters`)
and the option-source parsing entry point (`ConfigParse`).

Conventions of the embedding:
* Go machine integers are modelled as `Int` (no field here is subject to
  intended overflow).
* Go `nil` pointers become `Option`.
* The process-global random source consumed by `rand.Intn` is modelled by
  passing the drawn offset explicitly; `rand.Intn(n)` panics for `n ≤ 0`,
  which the embedding surfaces as `Option.none`.
* File-system reads (`ioutil.ReadFile`) are modelled by a function
  `fs : String → Option String` (`none` = read error), and
  `strings.TrimSpace` and `filepath.Clean` — Go standard-library helpers
  external to this repository — are passed as opaque function parameters
  `trim` and `clean`.
* The duck-typed option source (`connect.ConnOptions`) is a partial map
  from keys to values exposing the `String()` and `Int()` coercions.
-/

namespace Kvgo

/-- `ConfigStorage` from conf.go. -/
structure ConfigStorage where
  DataDirectory : String
deriving DecidableEq, Repr

/-- `ConfigTLSCertificate` from conf.go. -/
structure ConfigTLSCertificate where
  ServerKeyFile : String
  ServerKeyData : String
  ServerCertFile : String
  ServerCertData : String
deriving DecidableEq, Repr

/-- `ConfigServer` from conf.go; the `*ConfigTLSCertificate` pointer is an `Option`. -/
structure ConfigServer where
  Bind : String
  AuthSecretKey : String
  AuthTLSCert : Option ConfigTLSCertificate
deriving DecidableEq, Repr

/-- `ConfigPerformance` from conf.go; Go `int` fields are `Int`. -/
structure ConfigPerformance where
  WriteBufferSize : Int
  BlockCacheSize : Int
  MaxTableSize : Int
  MaxOpenFiles : Int
deriving DecidableEq, Repr

/-- `ConfigFeature` from conf.go. -/
structure ConfigFeature where
  WriteMetaDisable : Bool
  WriteLogDisable : Bool
  TableCompressName : String
deriving DecidableEq, Repr

/-- `ConfigClusterMaster` from conf.go. -/
structure ConfigClusterMaster where
  Addr : String
  AuthSecretKey : String
  AuthTLSCert : Option ConfigTLSCertificate
deriving DecidableEq, Repr

/-- `ConfigCluster` from conf.go; the `Masters` slice is a `List`. -/
structure ConfigCluster where
  Masters : List ConfigClusterMaster
deriving DecidableEq, Repr

/-- `Config` from conf.go. -/
structure Config where
  Storage : ConfigStorage
  Server : ConfigServer
  Performance : ConfigPerformance
  Feature : ConfigFeature
  Cluster : ConfigCluster
  ClientConnectEnable : Bool
deriving DecidableEq, Repr

/-- The Go zero value `Config{}`: empty strings, zero ints, false bools,
nil slice and nil pointers. -/
def zeroConfig : Config :=
  { Storage := { DataDirectory := "" }
    Server := { Bind := "", AuthSecretKey := "", AuthTLSCert := none }
    Performance := { WriteBufferSize := 0, BlockCacheSize := 0,
                     MaxTableSize := 0, MaxOpenFiles := 0 }
    Feature := { WriteMetaDisable := false, WriteLogDisable := false,
                 TableCompressName := "" }
    Cluster := { Masters := [] }
    ClientConnectEnable := false }

/-- `ConfigCluster.Master` from conf.go: linear scan, first address match wins. -/
def ConfigCluster.Master (it : ConfigCluster) (addr : String) :
    Option ConfigClusterMaster :=
  match it.Masters.find? (fun v => addr = v.Addr) with
  | some v => some v
  | none => none

/-- One of the two index loops of `randMasters`: starting from an
accumulator `ls`, append the elements of `src` in order while
`len(ls) <= cap` (Go `int` comparison, `cap` may be negative).
`src` is the sub-slice the Go loop indexes over
(`masters[offset:]` for the first loop, `masters[:offset]` for the second). -/
def appendUpTo (cap : Int) (ls : List ConfigClusterMaster) :
    List ConfigClusterMaster → List ConfigClusterMaster
  | [] => ls
  | x :: xs =>
    if (ls.length : Int) ≤ cap then appendUpTo cap (ls ++ [x]) xs else ls

/-- `ConfigCluster.randMasters` from conf.go.  `offset` models the value
drawn by `rand.Intn(len(it.Masters))`; callers of the theorems supply the
guarantee `offset < len` that `rand.Intn` provides.  When the master list
is empty, `rand.Intn(0)` panics in Go — modelled as `none`. -/
def ConfigCluster.randMasters (offset : Nat) (it : ConfigCluster) (cap : Int) :
    Option (List ConfigClusterMaster) :=
  if it.Masters.length = 0 then
    none
  else
    let ls : List ConfigClusterMaster := []
    let ls := appendUpTo cap ls (it.Masters.drop offset)
    let ls := appendUpTo cap ls (it.Masters.take offset)
    some ls

/-- `Config.Valid` from conf.go: the returned `error` is `some` message. -/
def Config.Valid (it : Config) : Option String :=
  if it.ClientConnectEnable then
    if it.Cluster.Masters.length < 1 then
      some "no cluster/masters setup"
    else none
  else none

/-- The common shape of the two TLS `if` blocks of `Config.reset`
(conf.go lines 166-171 and 173-178): when the file path is set and the
data field is empty, try to read the file and use its trimmed contents;
on read failure (or when the guard fails) the data field is unchanged. -/
def fillData (fs : String → Option String) (trim : String → String)
    (file dat : String) : String :=
  if file ≠ "" ∧ dat = "" then
    match fs file with
    | some bs => trim bs
    | none => dat
  else dat

/-- The TLS-materialization block of `Config.reset` (conf.go lines 164-179),
acting on a non-nil `AuthTLSCert`.  Each of the two Go `if` blocks reads
and writes only its own pair of fields, so computing both new data fields
from the incoming certificate is exact. -/
def resetTLSCert (fs : String → Option String) (trim : String → String)
    (cert : ConfigTLSCertificate) : ConfigTLSCertificate :=
  { cert with
    ServerKeyData := fillData fs trim cert.ServerKeyFile cert.ServerKeyData
    ServerCertData := fillData fs trim cert.ServerCertFile cert.ServerCertData }

/-- `Config.reset` from conf.go: clamp the four performance fields, coerce
the compression name, and best-effort materialize TLS data from files. -/
def Config.reset (fs : String → Option String) (trim : String → String)
    (it : Config) : Config :=
  { it with
    Performance :=
      { WriteBufferSize :=
          if it.Performance.WriteBufferSize < 4 then 4
          else if it.Performance.WriteBufferSize > 128 then 128
          else it.Performance.WriteBufferSize
        BlockCacheSize :=
          if it.Performance.BlockCacheSize < 8 then 8
          else if it.Performance.BlockCacheSize > 4096 then 4096
          else it.Performance.BlockCacheSize
        MaxTableSize :=
          if it.Performance.MaxTableSize < 8 then 8
          else if it.Performance.MaxTableSize > 64 then 64
          else it.Performance.MaxTableSize
        MaxOpenFiles :=
          if it.Performance.MaxOpenFiles < 500 then 500
          else if it.Performance.MaxOpenFiles > 10000 then 10000
          else it.Performance.MaxOpenFiles }
    Feature :=
      { it.Feature with
        TableCompressName :=
          if it.Feature.TableCompressName ≠ "snappy" then "none"
          else it.Feature.TableCompressName }
    Server :=
      { it.Server with
        AuthTLSCert :=
          match it.Server.AuthTLSCert with
          | some cert => some (resetTLSCert fs trim cert)
          | none => none } }

/-- The duck-typed option value of `connect.ConnOptions`, exposing the
`String()` and `Int()` coercions the source calls. -/
structure OptValue where
  str : String
  int : Int
deriving DecidableEq, Repr

/-- The server-settings block of `ConfigParse` (conf.go lines 199-204). -/
def parseServer (opts : String → Option OptValue) (cfg : Config) : Config :=
  match opts "server/bind" with
  | some v => { cfg with Server := { cfg.Server with Bind := v.str } }
  | none => cfg

/-- The performance-settings block of `ConfigParse` (conf.go lines 206-223). -/
def parsePerformance (opts : String → Option OptValue) (cfg : Config) : Config :=
  let cfg :=
    match opts "performance/write_buffer_size" with
    | some v =>
      { cfg with Performance := { cfg.Performance with WriteBufferSize := v.int } }
    | none => cfg
  let cfg :=
    match opts "performance/block_cache_size" with
    | some v =>
      { cfg with Performance := { cfg.Performance with BlockCacheSize := v.int } }
    | none => cfg
  let cfg :=
    match opts "performance/max_open_files" with
    | some v =>
      { cfg with Performance := { cfg.Performance with MaxOpenFiles := v.int } }
    | none => cfg
  match opts "performance/max_table_size" with
  | some v =>
    { cfg with Performance := { cfg.Performance with MaxTableSize := v.int } }
  | none => cfg

/-- The feature-settings block of `ConfigParse` (conf.go lines 225-234):
a flag is set only when the key is present and its string value is the
literal `"true"`. -/
def parseFeature (opts : String → Option OptValue) (cfg : Config) : Config :=
  let cfg :=
    match opts "feature/write_meta_disable" with
    | some v =>
      if v.str = "true" then
        { cfg with Feature := { cfg.Feature with WriteMetaDisable := true } }
      else cfg
    | none => cfg
  match opts "feature/write_log_disable" with
  | some v =>
    if v.str = "true" then
      { cfg with Feature := { cfg.Feature with WriteLogDisable := true } }
    else cfg
  | none => cfg

/-- `ConfigParse` from conf.go.  The data directory is resolved with
precedence `"storage/data_directory"` then `"data_dir"`; with neither
present the verbatim error is returned and no config is produced.
On success the parsed config is passed through `reset`. -/
def ConfigParse (clean trim : String → String) (fs : String → Option String)
    (opts : String → Option OptValue) : Except String Config :=
  match
    (match opts "storage/data_directory" with
     | some v => some v
     | none => opts "data_dir") with
  | none => Except.error "No storage/data_directory Found"
  | some v =>
    let cfg := { zeroConfig with Storage := { DataDirectory := clean v.str } }
    let cfg := parseServer opts cfg
    let cfg := parsePerformance opts cfg
    let cfg := parseFeature opts cfg
    Except.ok (cfg.reset fs trim)

/-- Numeric clamp as the spec defines it: bound a value into `[lo, hi]`,
pulling out-of-range values to the nearest bound. -/
def clamp (lo hi v : Int) : Int := max lo (min v hi)

/-- A concrete four-master cluster list used to instantiate theorems. -/
def mastersABCD : List ConfigClusterMaster :=
  [{ Addr := "a", AuthSecretKey := "", AuthTLSCert := none },
   { Addr := "b", AuthSecretKey := "", AuthTLSCert := none },
   { Addr := "c", AuthSecretKey := "", AuthTLSCert := none },
   { Addr := "d", AuthSecretKey := "", AuthTLSCert := none }]

/-- A concrete option source holding both data-directory keys. -/
def optsAB : String → Option OptValue := fun k =>
  if k = "storage/data_directory" then some { str := "/a", int := 0 }
  else if k = "data_dir" then some { str := "/b", int := 0 }
  else none

/-- A concrete option source: alias data directory plus a feature flag. -/
def optsMeta : String → Option OptValue := fun k =>
  if k = "data_dir" then some { str := "/d", int := 0 }
  else if k = "feature/write_meta_disable" then some { str := "true", int := 0 }
  else none

/-- A concrete option source holding only the alias data-directory key. -/
def optsDir : String → Option OptValue := fun k =>
  if k = "data_dir" then some { str := "/x", int := 0 }
  else none

/-- The config `ConfigParse id id (fun _ => none) optsMeta` produces. -/
def cfgMetaRes : Config :=
  { Storage := { DataDirectory := "/d" }
    Server := { Bind := "", AuthSecretKey := "", AuthTLSCert := none }
    Performance := { WriteBufferSize := 4, BlockCacheSize := 8,
                     MaxTableSize := 8, MaxOpenFiles := 500 }
    Feature := { WriteMetaDisable := true, WriteLogDisable := false,
                 TableCompressName := "none" }
    Cluster := { Masters := [] }
    ClientConnectEnable := false }

/-- The config `ConfigParse id id (fun _ => none) optsDir` produces. -/
def cfgDirRes : Config :=
  { Storage := { DataDirectory := "/x" }
    Server := { Bind := "", AuthSecretKey := "", AuthTLSCert := none }
    Performance := { WriteBufferSize := 4, BlockCacheSize := 8,
                     MaxTableSize := 8, MaxOpenFiles := 500 }
    Feature := { WriteMetaDisable := false, WriteLogDisable := false,
                 TableCompressName := "none" }
    Cluster := { Masters := [] }
    ClientConnectEnable := false }

/-- A concrete TLS certificate: key file set with empty key data, cert
data already inline. -/
def certSample : ConfigTLSCertificate :=
  { ServerKeyFile := "key.pem", ServerKeyData := ""
    ServerCertFile := "", ServerCertData := "CERT" }

/-- A concrete config carrying `certSample`. -/
def cfgTLS : Config :=
  { zeroConfig with
    Server := { Bind := "", AuthSecretKey := "", AuthTLSCert := some certSample } }

end Kvgo

namespace Kvgo

/-- The accumulating loop of `randMasters` appends a prefix of its source
slice: it extends `ls` with the first `cap + 1 - ls.length` elements of
`src` (none when the accumulator already exceeds `cap`). -/
theorem appendUpTo_eq (cap : Int) (src : List ConfigClusterMaster) :
    ∀ ls : List ConfigClusterMaster,
    appendUpTo cap ls src = ls ++ src.take (cap + 1 - ls.length).toNat := by
  induction src with
  | nil => intro ls; simp [appendUpTo]
  | cons x xs ih =>
    intro ls
    simp only [appendUpTo]
    split_ifs with h
    · rw [ih]
      have h1 : (cap + 1 - ((ls ++ [x]).length : Int)).toNat
          = (cap - (ls.length : Int)).toNat := by
        simp only [List.length_append, List.length_cons, List.length_nil]
        omega
      have h2 : (cap + 1 - (ls.length : Int)).toNat
          = (cap - (ls.length : Int)).toNat + 1 := by omega
      rw [h1, h2, List.take_succ_cons, List.append_assoc, List.singleton_append]
    · have h0 : (cap + 1 - (ls.length : Int)).toNat = 0 := by omega
      simp [h0]

/-- C1: the claim states `randMasters` on an empty master list never
faults.  In the source, `randMasters` draws its offset with
`rand.Intn(len(it.Masters))` before any emptiness check, and Go's
`rand.Intn` panics when its argument is `0`; the embedding surfaces that
panic as `none`.  So for every offset draw and every cap the call on an
empty list faults instead of returning a defined error or empty result. -/
theorem randMasters_empty_panics (offset : Nat) (cap : Int) :
    ConfigCluster.randMasters offset { Masters := [] } cap = none := rfl

/-- C2: for a non-empty master list, an offset in range (as `rand.Intn`
guarantees) and a nonnegative cap, `randMasters` returns exactly the
length-`min(len, cap+1)` prefix of the cyclic rotation of the list
starting at the offset: relative order is preserved and emission stops
only once the accumulated length exceeds `cap`. -/
theorem randMasters_rotation (offset : Nat) (masters : List ConfigClusterMaster)
    (cap : Int) (hne : masters ≠ []) (hoff : offset < masters.length)
    (hcap : 0 ≤ cap) :
    ConfigCluster.randMasters offset { Masters := masters } cap =
      some ((masters.rotate offset).take (cap.toNat + 1)) ∧
    ((masters.rotate offset).take (cap.toNat + 1)).length
      = min masters.length (cap.toNat + 1) := by
  have hlen : masters.length ≠ 0 := by
    simpa using fun h => hne (List.length_eq_zero.mp h)
  constructor
  · simp only [ConfigCluster.randMasters, if_neg hlen]
    rw [appendUpTo_eq, appendUpTo_eq]
    rw [List.rotate_eq_drop_append_take (le_of_lt hoff)]
    rw [List.take_append_eq_append_take]
    simp only [List.nil_append, List.length_nil, Nat.cast_zero]
    have h0 : (cap + 1 - 0).toNat = cap.toNat + 1 := by omega
    rw [h0]
    have h1 : ((masters.drop offset).take (cap.toNat + 1)).length
        = min (cap.toNat + 1) (masters.length - offset) := by
      rw [List.length_take, List.length_drop]
    rw [h1, List.length_drop]
    have h2 : (cap + 1 -
          ((min (cap.toNat + 1) (masters.length - offset) : Nat) : Int)).toNat
        = cap.toNat + 1 - (masters.length - offset) := by omega
    rw [h2]
  · rw [List.length_take, List.length_rotate]
    omega

/-- Witness for C2 at masters `[a,b,c,d]`, offset 2, cap 2. -/
theorem randMasters_rotation_witness :
    mastersABCD ≠ [] ∧ 2 < mastersABCD.length ∧ (0 : Int) ≤ 2 ∧
    (ConfigCluster.randMasters 2 { Masters := mastersABCD } 2 =
        some ((mastersABCD.rotate 2).take ((2 : Int).toNat + 1)) ∧
      ((mastersABCD.rotate 2).take ((2 : Int).toNat + 1)).length
        = min mastersABCD.length ((2 : Int).toNat + 1)) :=
  ⟨by decide, by decide, by decide,
    randMasters_rotation 2 mastersABCD 2 (by decide) (by decide) (by decide)⟩

/-- C3: after `reset`, each of the four performance fields equals the
clamp of its input into its closed interval — `WriteBufferSize` into
`[4,128]`, `BlockCacheSize` into `[8,4096]`, `MaxTableSize` into `[8,64]`,
`MaxOpenFiles` into `[500,10000]` — for every integer input; in-range
values are unchanged, out-of-range values are pulled to the nearest
bound, and no value is ever rejected. -/
theorem reset_performance_clamps (fs : String → Option String)
    (trim : String → String) (c : Config) :
    (c.reset fs trim).Performance.WriteBufferSize
        = clamp 4 128 c.Performance.WriteBufferSize ∧
    (c.reset fs trim).Performance.BlockCacheSize
        = clamp 8 4096 c.Performance.BlockCacheSize ∧
    (c.reset fs trim).Performance.MaxTableSize
        = clamp 8 64 c.Performance.MaxTableSize ∧
    (c.reset fs trim).Performance.MaxOpenFiles
        = clamp 500 10000 c.Performance.MaxOpenFiles := by
  refine ⟨?_, ?_, ?_, ?_⟩ <;>
    · simp only [Config.reset, clamp]
      split_ifs <;> omega

/-- C4: `Valid` returns an error exactly when `ClientConnectEnable` is
true and the master list is empty, and then the error is the verbatim
string `"no cluster/masters setup"`; in every other configuration it
returns nil.  The embedding of `Valid` is a pure function of the config,
mirroring that the source only reads through the receiver pointer. -/
theorem Valid_spec (c : Config) :
    c.Valid = if c.ClientConnectEnable = true ∧ c.Cluster.Masters = [] then
        some "no cluster/masters setup"
      else none := by
  simp only [Config.Valid]
  cases hc : c.ClientConnectEnable <;> cases hm : c.Cluster.Masters <;>
    simp [hc, hm]

/-- C7: after `reset`, the compression name is `"snappy"` iff the input
was exactly `"snappy"`; every other input string is coerced to `"none"`,
silently. -/
theorem reset_tableCompressName (fs : String → Option String)
    (trim : String → String) (c : Config) :
    (c.reset fs trim).Feature.TableCompressName
        = (if c.Feature.TableCompressName = "snappy" then "snappy"
           else "none") ∧
    ((c.reset fs trim).Feature.TableCompressName = "snappy" ↔
      c.Feature.TableCompressName = "snappy") := by
  by_cases h : c.Feature.TableCompressName = "snappy" <;>
    simp [Config.reset, h]

/-- `fillData` is absorbing: applying it to its own output changes nothing
(under the same file-system state). -/
theorem fillData_idem (fs : String → Option String) (trim : String → String)
    (file dat : String) :
    fillData fs trim file (fillData fs trim file dat)
      = fillData fs trim file dat := by
  unfold fillData
  by_cases hf : file = ""
  · simp [hf]
  · by_cases hd : dat = ""
    · rcases hfs : fs file with _ | bs
      · simp [hf, hd, hfs]
      · by_cases ht : trim bs = "" <;> simp [hf, hd, ht, hfs]
    · simp [hd]

/-- A non-empty data field is never changed by `fillData`. -/
theorem fillData_of_data_ne (fs : String → Option String)
    (trim : String → String) (file dat : String) (h : dat ≠ "") :
    fillData fs trim file dat = dat := by
  simp [fillData, h]

/-- With an empty file path, `fillData` changes nothing. -/
theorem fillData_of_file_empty (fs : String → Option String)
    (trim : String → String) (file dat : String) (h : file = "") :
    fillData fs trim file dat = dat := by
  simp [fillData, h]

/-- On a failed read, `fillData` leaves an empty data field empty. -/
theorem fillData_of_read_fail (fs : String → Option String)
    (trim : String → String) (file dat : String) (hd : dat = "")
    (hfs : fs file = none) :
    fillData fs trim file dat = dat := by
  by_cases hf : file = "" <;> simp [fillData, hf, hd, hfs]

/-- The TLS block of `reset` is absorbing under a fixed file system. -/
theorem resetTLSCert_idem (fs : String → Option String)
    (trim : String → String) (cert : ConfigTLSCertificate) :
    resetTLSCert fs trim (resetTLSCert fs trim cert)
      = resetTLSCert fs trim cert := by
  obtain ⟨kf, kd, cf, cd⟩ := cert
  simp [resetTLSCert, fillData_idem]

/-- C6: normalization is idempotent under a fixed file-system state and a
fixed trimming function: every transformation of `reset` is an absorbing
clamp or coercion, so applying `reset` twice equals applying it once. -/
theorem reset_idem (fs : String → Option String) (trim : String → String)
    (c : Config) :
    (c.reset fs trim).reset fs trim = c.reset fs trim := by
  obtain ⟨st, ⟨bd, ak, tls⟩, ⟨wb, bc, mt, mo⟩, ⟨wm, wl, tc⟩, cl, cce⟩ := c
  simp only [Config.reset, Config.mk.injEq, ConfigPerformance.mk.injEq,
    ConfigFeature.mk.injEq, ConfigServer.mk.injEq]
  refine ⟨trivial, ⟨trivial, trivial, ?_⟩, ⟨?_, ?_, ?_, ?_⟩,
    ⟨trivial, trivial, ?_⟩, trivial, trivial⟩
  · cases tls with
    | none => rfl
    | some cert => simp [resetTLSCert_idem]
  · split_ifs <;> omega
  · split_ifs <;> omega
  · split_ifs <;> omega
  · split_ifs <;> omega
  · by_cases h : tc = "snappy" <;> simp [h]

/-- C8: during normalization a TLS data field is written only when its
file-path field is non-empty and the data field itself is empty; a
non-empty data field is never overwritten; and on a read failure the data
field is left empty while normalization proceeds (totally, without
error).  The file-path fields themselves are never written. -/
theorem reset_tls_frame (fs : String → Option String)
    (trim : String → String) (c : Config) (cert : ConfigTLSCertificate)
    (hc : c.Server.AuthTLSCert = some cert) :
    (c.reset fs trim).Server.AuthTLSCert = some (resetTLSCert fs trim cert) ∧
    (resetTLSCert fs trim cert).ServerKeyFile = cert.ServerKeyFile ∧
    (resetTLSCert fs trim cert).ServerCertFile = cert.ServerCertFile ∧
    (cert.ServerKeyData ≠ "" →
      (resetTLSCert fs trim cert).ServerKeyData = cert.ServerKeyData) ∧
    (cert.ServerKeyFile = "" →
      (resetTLSCert fs trim cert).ServerKeyData = cert.ServerKeyData) ∧
    (cert.ServerKeyData = "" → fs cert.ServerKeyFile = none →
      (resetTLSCert fs trim cert).ServerKeyData = "") ∧
    (cert.ServerCertData ≠ "" →
      (resetTLSCert fs trim cert).ServerCertData = cert.ServerCertData) ∧
    (cert.ServerCertFile = "" →
      (resetTLSCert fs trim cert).ServerCertData = cert.ServerCertData) ∧
    (cert.ServerCertData = "" → fs cert.ServerCertFile = none →
      (resetTLSCert fs trim cert).ServerCertData = "") := by
  refine ⟨by simp [Config.reset, hc], rfl, rfl, ?_, ?_, ?_, ?_, ?_, ?_⟩
  · intro h
    simpa [resetTLSCert] using fillData_of_data_ne fs trim _ _ h
  · intro h
    simpa [resetTLSCert] using fillData_of_file_empty fs trim _ _ h
  · intro hd hfs
    have := fillData_of_read_fail fs trim cert.ServerKeyFile
      cert.ServerKeyData hd hfs
    simpa [resetTLSCert, hd] using this
  · intro h
    simpa [resetTLSCert] using fillData_of_data_ne fs trim _ _ h
  · intro h
    simpa [resetTLSCert] using fillData_of_file_empty fs trim _ _ h
  · intro hd hfs
    have := fillData_of_read_fail fs trim cert.ServerCertFile
      cert.ServerCertData hd hfs
    simpa [resetTLSCert, hd] using this

/-- Witness for C8 on a concrete config whose certificate has a key file
set, empty key data, and inline cert data, with every file read failing. -/
theorem reset_tls_frame_witness :
    cfgTLS.Server.AuthTLSCert = some certSample ∧
    ((cfgTLS.reset (fun _ => none) id).Server.AuthTLSCert
        = some (resetTLSCert (fun _ => none) id certSample) ∧
      (resetTLSCert (fun _ => none) id certSample).ServerKeyFile
        = certSample.ServerKeyFile ∧
      (resetTLSCert (fun _ => none) id certSample).ServerCertFile
        = certSample.ServerCertFile ∧
      (certSample.ServerKeyData ≠ "" →
        (resetTLSCert (fun _ => none) id certSample).ServerKeyData
          = certSample.ServerKeyData) ∧
      (certSample.ServerKeyFile = "" →
        (resetTLSCert (fun _ => none) id certSample).ServerKeyData
          = certSample.ServerKeyData) ∧
      (certSample.ServerKeyData = "" →
          (fun (_ : String) => (none : Option String)) certSample.ServerKeyFile
            = none →
        (resetTLSCert (fun _ => none) id certSample).ServerKeyData = "") ∧
      (certSample.ServerCertData ≠ "" →
        (resetTLSCert (fun _ => none) id certSample).ServerCertData
          = certSample.ServerCertData) ∧
      (certSample.ServerCertFile = "" →
        (resetTLSCert (fun _ => none) id certSample).ServerCertData
          = certSample.ServerCertData) ∧
      (certSample.ServerCertData = "" →
          (fun (_ : String) => (none : Option String)) certSample.ServerCertFile
            = none →
        (resetTLSCert (fun _ => none) id certSample).ServerCertData = "")) :=
  ⟨rfl, reset_tls_frame (fun _ => none) id cfgTLS certSample rfl⟩

/-- `parseServer` touches only the server settings. -/
theorem parseServer_pres (opts : String → Option OptValue) (cfg : Config) :
    (parseServer opts cfg).Storage = cfg.Storage ∧
    (parseServer opts cfg).Feature = cfg.Feature ∧
    (parseServer opts cfg).Cluster = cfg.Cluster := by
  cases h : opts "server/bind" <;> simp [parseServer, h]

/-- `parsePerformance` touches only the performance settings. -/
theorem parsePerformance_pres (opts : String → Option OptValue) (cfg : Config) :
    (parsePerformance opts cfg).Storage = cfg.Storage ∧
    (parsePerformance opts cfg).Feature = cfg.Feature ∧
    (parsePerformance opts cfg).Cluster = cfg.Cluster := by
  unfold parsePerformance
  cases h1 : opts "performance/write_buffer_size" <;>
  cases h2 : opts "performance/block_cache_size" <;>
  cases h3 : opts "performance/max_open_files" <;>
  cases h4 : opts "performance/max_table_size" <;>
  simp [h1, h2, h3, h4]

/-- `parseFeature` touches only the two feature flags. -/
theorem parseFeature_pres (opts : String → Option OptValue) (cfg : Config) :
    (parseFeature opts cfg).Storage = cfg.Storage ∧
    (parseFeature opts cfg).Cluster = cfg.Cluster := by
  unfold parseFeature
  cases h1 : opts "feature/write_meta_disable" <;>
  cases h2 : opts "feature/write_log_disable" <;>
  simp [h1, h2] <;> split_ifs <;> simp

/-- Characterization of the two feature flags after `parseFeature`: a
present key sets its flag when the value is the literal `"true"` and
otherwise leaves it; an absent key leaves it. -/
theorem parseFeature_flags (opts : String → Option OptValue) (cfg : Config) :
    (parseFeature opts cfg).Feature.WriteMetaDisable
      = (match opts "feature/write_meta_disable" with
         | some v => if v.str = "true" then true else cfg.Feature.WriteMetaDisable
         | none => cfg.Feature.WriteMetaDisable) ∧
    (parseFeature opts cfg).Feature.WriteLogDisable
      = (match opts "feature/write_log_disable" with
         | some v => if v.str = "true" then true else cfg.Feature.WriteLogDisable
         | none => cfg.Feature.WriteLogDisable) := by
  unfold parseFeature
  cases h1 : opts "feature/write_meta_disable" <;>
  cases h2 : opts "feature/write_log_disable" <;>
  simp [h1, h2] <;> split_ifs <;> simp_all

/-- `reset` never touches the storage or cluster settings, the
client-connect flag, or the two feature flags. -/
theorem reset_pres (fs : String → Option String) (trim : String → String)
    (c : Config) :
    (c.reset fs trim).Storage = c.Storage ∧
    (c.reset fs trim).Cluster = c.Cluster ∧
    (c.reset fs trim).Feature.WriteMetaDisable = c.Feature.WriteMetaDisable ∧
    (c.reset fs trim).Feature.WriteLogDisable = c.Feature.WriteLogDisable :=
  ⟨rfl, rfl, rfl, rfl⟩

/-- C5: `ConfigParse` resolves the data directory with fixed precedence —
a present `"storage/data_directory"` key wins (its cleaned value is used
even when `"data_dir"` is also present), a present `"data_dir"` key is
the fallback, and with neither key present parsing fails with the
verbatim error `"No storage/data_directory Found"` and produces no
config. -/
theorem ConfigParse_dataDirectory (clean trim : String → String)
    (fs : String → Option String) (opts : String → Option OptValue) :
    (∀ v, opts "storage/data_directory" = some v →
      (ConfigParse clean trim fs opts).map (fun cfg => cfg.Storage.DataDirectory)
        = Except.ok (clean v.str)) ∧
    (opts "storage/data_directory" = none →
      ∀ v, opts "data_dir" = some v →
      (ConfigParse clean trim fs opts).map (fun cfg => cfg.Storage.DataDirectory)
        = Except.ok (clean v.str)) ∧
    (opts "storage/data_directory" = none → opts "data_dir" = none →
      ConfigParse clean trim fs opts
        = Except.error "No storage/data_directory Found") := by
  have hpipe : ∀ cfg : Config,
      ((parseFeature opts (parsePerformance opts (parseServer opts cfg))).reset
          fs trim).Storage = cfg.Storage := by
    intro cfg
    rw [(reset_pres fs trim _).1, (parseFeature_pres opts _).1,
      (parsePerformance_pres opts _).1, (parseServer_pres opts _).1]
  refine ⟨?_, ?_, ?_⟩
  · intro v hv
    simp only [ConfigParse, hv, Except.map]
    rw [hpipe]
  · intro h0 v hv
    simp only [ConfigParse, h0, hv, Except.map]
    rw [hpipe]
  · intro h0 h1
    simp only [ConfigParse, h0, h1]

/-- Witness for C5: with both data-directory keys present the primary
key wins. -/
theorem ConfigParse_dataDirectory_witness :
    optsAB "storage/data_directory" = some { str := "/a", int := 0 } ∧
    (ConfigParse id id (fun _ => none) optsAB).map
        (fun cfg => cfg.Storage.DataDirectory) = Except.ok "/a" :=
  ⟨rfl, (ConfigParse_dataDirectory id id (fun _ => none) optsAB).1
    { str := "/a", int := 0 } rfl⟩

/-- C9: in a successfully parsed config, each of the two boolean feature
flags is true exactly when its option key is present with the literal
string value `"true"` (strict, case-sensitive equality); any other value
or an absent key leaves the flag false. -/
theorem ConfigParse_featureFlags (clean trim : String → String)
    (fs : String → Option String) (opts : String → Option OptValue)
    (cfg : Config) (h : ConfigParse clean trim fs opts = Except.ok cfg) :
    cfg.Feature.WriteMetaDisable
      = (match opts "feature/write_meta_disable" with
         | some v => decide (v.str = "true")
         | none => false) ∧
    cfg.Feature.WriteLogDisable
      = (match opts "feature/write_log_disable" with
         | some v => decide (v.str = "true")
         | none => false) := by
  have hflags : ∀ c0 : Config,
      c0.Feature.WriteMetaDisable = false → c0.Feature.WriteLogDisable = false →
      ((parseFeature opts (parsePerformance opts (parseServer opts c0))).reset
          fs trim).Feature.WriteMetaDisable
        = (match opts "feature/write_meta_disable" with
           | some v => decide (v.str = "true")
           | none => false) ∧
      ((parseFeature opts (parsePerformance opts (parseServer opts c0))).reset
          fs trim).Feature.WriteLogDisable
        = (match opts "feature/write_log_disable" with
           | some v => decide (v.str = "true")
           | none => false) := by
    intro c0 hm hl
    have h1 : (parsePerformance opts (parseServer opts c0)).Feature
        = c0.Feature := by
      rw [(parsePerformance_pres opts _).2.1, (parseServer_pres opts _).2.1]
    constructor
    · rw [(reset_pres fs trim _).2.2.1, (parseFeature_flags opts _).1, h1, hm]
      cases opts "feature/write_meta_disable" with
      | none => rfl
      | some v => by_cases hv : v.str = "true" <;> simp [hv]
    · rw [(reset_pres fs trim _).2.2.2, (parseFeature_flags opts _).2, h1, hl]
      cases opts "feature/write_log_disable" with
      | none => rfl
      | some v => by_cases hv : v.str = "true" <;> simp [hv]
  simp only [ConfigParse] at h
  rcases h1 : opts "storage/data_directory" with _ | v
  · rcases h2 : opts "data_dir" with _ | v
    · rw [h1, h2] at h
      exact absurd h (by simp)
    · rw [h1, h2] at h
      simp only [Except.ok.injEq] at h
      subst h
      exact hflags _ rfl rfl
  · rw [h1] at h
    simp only [Except.ok.injEq] at h
    subst h
    exact hflags _ rfl rfl

/-- Witness for C9: `"feature/write_meta_disable" = "true"` sets the
flag, an absent `"feature/write_log_disable"` leaves its flag false. -/
theorem ConfigParse_featureFlags_witness :
    ConfigParse id id (fun _ => none) optsMeta = Except.ok cfgMetaRes ∧
    (cfgMetaRes.Feature.WriteMetaDisable
        = (match optsMeta "feature/write_meta_disable" with
           | some v => decide (v.str = "true")
           | none => false) ∧
      cfgMetaRes.Feature.WriteLogDisable
        = (match optsMeta "feature/write_log_disable" with
           | some v => decide (v.str = "true")
           | none => false)) :=
  ⟨rfl, ConfigParse_featureFlags id id (fun _ => none) optsMeta cfgMetaRes rfl⟩

/-- C10: a successfully parsed config always has an empty master list (no
option-source key populates cluster masters), so enabling client-connect
mode on it without adding masters makes `Valid` return the
`"no cluster/masters setup"` error. -/
theorem ConfigParse_masters_empty (clean trim : String → String)
    (fs : String → Option String) (opts : String → Option OptValue)
    (cfg : Config) (h : ConfigParse clean trim fs opts = Except.ok cfg) :
    cfg.Cluster.Masters = [] ∧
    Config.Valid { cfg with ClientConnectEnable := true }
      = some "no cluster/masters setup" := by
  have hcl : ∀ c0 : Config,
      ((parseFeature opts (parsePerformance opts (parseServer opts c0))).reset
          fs trim).Cluster = c0.Cluster := by
    intro c0
    rw [(reset_pres fs trim _).2.1, (parseFeature_pres opts _).2,
      (parsePerformance_pres opts _).2.2, (parseServer_pres opts _).2.2]
  have hdone : ∀ c0 : Config, c0.Cluster.Masters = [] →
      ∀ cfg1 : Config,
      cfg1 = (parseFeature opts (parsePerformance opts (parseServer opts
          c0))).reset fs trim →
      cfg1.Cluster.Masters = [] ∧
      Config.Valid { cfg1 with ClientConnectEnable := true }
        = some "no cluster/masters setup" := by
    intro c0 hc0 cfg1 hcfg1
    have hm : cfg1.Cluster.Masters = [] := by
      rw [hcfg1, hcl, hc0]
    exact ⟨hm, by simp [Config.Valid, hm]⟩
  simp only [ConfigParse] at h
  rcases h1 : opts "storage/data_directory" with _ | v
  · rcases h2 : opts "data_dir" with _ | v
    · rw [h1, h2] at h
      exact absurd h (by simp)
    · rw [h1, h2] at h
      simp only [Except.ok.injEq] at h
      exact hdone _ rfl cfg h.symm
  · rw [h1] at h
    simp only [Except.ok.injEq] at h
    exact hdone _ rfl cfg h.symm

/-- Witness for C10 on a minimal option source holding only the alias
data-directory key. -/
theorem ConfigParse_masters_empty_witness :
    ConfigParse id id (fun _ => none) optsDir = Except.ok cfgDirRes ∧
    (cfgDirRes.Cluster.Masters = [] ∧
      Config.Valid { cfgDirRes with ClientConnectEnable := true }
        = some "no cluster/masters setup") :=
  ⟨rfl, ConfigParse_masters_empty id id (fun _ => none) optsDir cfgDirRes rfl⟩

end Kvgo
